import Mathlib

/-!
Verification development for the harvest-collector-service repository.

The service orchestrates a crawl: a Task owns (through an input container) one
HarvestingCollection, which contains remote data objects (Documents); each
Document carries an adms:status URI.  All persistent state lives in a SPARQL
triple store; the functions of `src/lib/harvest.js` (and its variant in
`src/unnamed/part_004`), `src/lib/credential-helpers.js` and the
`ProcessingQueue` class read and write that store.

The shallow embedding below models the store at the entity level: a
`Doc` records the fields the queries touch (URI, nie:url, adms:status and the
physical-file metadata reachable through nie:dataSource), a `CollState`
records one collection together with its owning task's status, its
authentication configuration and the results containers appended to the task.
A separate triple-level model (`Triple`, `updateHarvestStatus`) is used for
the frame property of the status-update query, which is stated about raw
triples.  External effects (file reads, RDFa parsing, uuid generation) enter
as explicit parameters.
-/

namespace HarvestCollector

/-! ### Status constants (from src/lib/harvest.js lines 15-21 and the inline
URIs of `isHarvestingCollectionDone`) -/

def REMOTE_READY_STATUS : String :=
  "http://lblod.data.gift/file-download-statuses/ready-to-be-cached"

def REMOTE_ONGOING_STATUS : String :=
  "http://lblod.data.gift/file-download-statuses/ongoing"

def REMOTE_SUCCESS_STATUS : String :=
  "http://lblod.data.gift/file-download-statuses/success"

def REMOTE_COLLECTED_STATUS : String :=
  "http://lblod.data.gift/file-download-statuses/collected"

def TASK_STATUS_SUCCESS : String :=
  "http://redpencil.data.gift/id/concept/JobStatus/success"

def TASK_STATUS_FAILED : String :=
  "http://redpencil.data.gift/id/concept/JobStatus/failed"

/-! ### Entity-level data model -/

/-- Physical file metadata reachable from a Document through nie:dataSource:
the nfo:fileName and nfo:fileSize triples read by
`appendCollectedFilesToTaskResultsContainer`. -/
structure PhysFile where
  fileName : String
  fileSize : String
deriving DecidableEq, Repr

/-- One remote data object (Document) of a harvesting collection: its URI,
its nie:url, its adms:status and, when the download produced one, its
physical file. -/
structure Doc where
  uri : String
  url : String
  status : String
  physFile : Option PhysFile
deriving DecidableEq, Repr

/-- The statuses the `FILTER ( ?status IN (...) )` clause of
`isHarvestingCollectionDone` treats as still in flight
(src/lib/harvest.js line 467). -/
def inFlightStatuses : List String :=
  [REMOTE_READY_STATUS, REMOTE_ONGOING_STATUS, REMOTE_SUCCESS_STATUS]

/-- Embedding of `isHarvestingCollectionDone` (src/lib/harvest.js lines
453-476): the query selects every member of the collection, other than the
triggering remote data object, whose status is ready-to-be-cached, ongoing or
success; the function returns whether that result set is empty. -/
def isHarvestingCollectionDone (docs : List Doc) (remoteDataObject : String) : Bool :=
  (docs.filter fun d =>
    decide (d.uri ≠ remoteDataObject ∧ d.status ∈ inFlightStatuses)).isEmpty

/-! ### Authentication configuration model (src/lib/credential-helpers.js)

The two supported security scheme shapes are fixed by the `VALUES ?secType`
clauses of credential-helpers.js (BasicSecurityScheme, OAuth2SecurityScheme);
the `BASIC_AUTH` and `OAUTH2` constants imported from `../constants` must
denote these two URIs for the `switch`/`if` branches over them to be
meaningful. -/

def BASIC_AUTH : String := "https://www.w3.org/2019/wot/security#BasicSecurityScheme"

def OAUTH2 : String := "https://www.w3.org/2019/wot/security#OAuth2SecurityScheme"

/-- Secrets of a basic-auth configuration: the meb:username and
muAccount:password triples of the dgftSec:secrets node. -/
structure BasicCreds where
  username : String
  password : String
deriving DecidableEq, Repr

/-- Secrets of an OAuth2 configuration: the dgftOauth:clientId and
dgftOauth:clientSecret triples of the dgftSec:secrets node. -/
structure OauthCreds where
  clientId : String
  clientSecret : String
deriving DecidableEq, Repr

/-- An AuthenticationConfiguration attached to a collection (or document):
its URI, the rdf:type of its dgftSec:securityConfiguration node, and the
secrets of whichever shape it carries. -/
structure AuthenticationConfiguration where
  uri : String
  secType : String
  basic : Option BasicCreds
  oauth : Option OauthCreds
deriving DecidableEq, Repr

/-! ### Collection-level state -/

/-- Entry of a task results container, as inserted by
`appendCollectedFilesToTaskResultsContainer`: a remote data object URI with
the nfo:fileName and nfo:fileSize copied from its physical file. -/
structure ResultEntry where
  remoteDataObject : String
  fileName : String
  fileSize : String
deriving DecidableEq, Repr

/-- One harvesting collection together with the state the orchestration
functions read and write: its member documents, the URI and adms:status of
the task owning it (through the input container), its authentication
configuration and the results containers appended to the task so far. -/
structure CollState where
  uri : String
  docs : List Doc
  taskUri : String
  taskStatus : String
  auth : Option AuthenticationConfiguration
  resultsContainers : List (List ResultEntry)
deriving DecidableEq, Repr

/-! ### Operations of src/lib/harvest.js, src/unnamed/part_004 and
src/lib/credential-helpers.js -/

/-- Embedding of `hasBeenCollected` (src/lib/harvest.js lines 225-242): true
when some member of the collection carries a nie:url triple equal to the
given url (the query returns the binding count, used as a truthy value). -/
def hasBeenCollected (url : String) (docs : List Doc) : Bool :=
  !(docs.filter fun d => decide (d.url = url)).isEmpty

/-- Remote data object URIs are minted as
`http://data.lblod.info/id/remote-data-objects/` followed by a fresh uuid;
the uuid supply is modelled by a counter. -/
def mkRemoteDataObjectUri (fresh : Nat) : String :=
  "http://data.lblod.info/id/remote-data-objects/" ++ toString fresh

/-- Embedding of `prepareNewDownloads` (src/lib/harvest.js lines 182-220 and
src/unnamed/part_004 lines 166-202): for each url in order, when no member of
the collection already has that nie:url, insert a fresh remote data object
with that url and status ready-to-be-cached.  The part_004 variant
additionally clones the collection's authentication configuration onto the
new document; that write touches no dct:hasPart or nie:url triple and is
modelled separately by `attachClonedAuthenticationConfiguraton`. -/
def prepareNewDownloads (urls : List String) (docs : List Doc) (fresh : Nat) :
    List Doc :=
  match urls with
  | [] => docs
  | url :: rest =>
    if hasBeenCollected url docs then
      prepareNewDownloads rest docs fresh
    else
      prepareNewDownloads rest
        (docs ++ [⟨mkRemoteDataObjectUri fresh, url, REMOTE_READY_STATUS, none⟩])
        (fresh + 1)

/-- Entity-level effect of `updateHarvestStatus` on a document of the
collection: the DELETE/INSERT query replaces the adms:status of the resource
bound to the given URI (documents created by this service always carry a
status, so the WHERE clause matches). -/
def updateDocStatus (docs : List Doc) (uri status : String) : List Doc :=
  docs.map fun d => if d.uri = uri then { d with status := status } else d

/-- Entity-level effect of `updateHarvestStatus` on the task owning the
collection. -/
def setTaskStatus (st : CollState) (status : String) : CollState :=
  { st with taskStatus := status }

/-- Embedding of `appendCollectedFilesToTaskResultsContainer`
(src/lib/harvest.js lines 365-413): select every member of the collection
that has a physical file carrying nfo:fileName and nfo:fileSize, and, when
that selection is non-empty, mint a fresh container, attach it to the task
and insert one entry per selected document; with an empty selection nothing
is written. -/
def appendCollectedFilesToTaskResultsContainer (st : CollState) : CollState :=
  let entries := st.docs.filterMap fun d =>
    d.physFile.map fun p => ResultEntry.mk d.uri p.fileName p.fileSize
  if entries.isEmpty then st
  else { st with resultsContainers := st.resultsContainers ++ [entries] }

/-- Embedding of `deleteCredentials` (src/lib/credential-helpers.js lines
100-166): `getCredentialsType` resolves the configuration's scheme type
(restricted by a VALUES clause to the two supported shapes); the basic branch
deletes the username/password secrets, the OAuth2 branch the
clientId/clientSecret secrets, and any other type returns without change. -/
def deleteCredentials (st : CollState) : CollState :=
  match st.auth with
  | none => st
  | some cfg =>
    if cfg.secType = BASIC_AUTH then
      { st with auth := some { cfg with basic := none } }
    else if cfg.secType = OAUTH2 then
      { st with auth := some { cfg with oauth := none } }
    else st

/-- Embedding of `getPhysicalFile` (src/lib/harvest.js lines 296-312): the
physical file whose nie:dataSource is the given remote data object, when
present. -/
def getPhysicalFile (st : CollState) (remoteDataObject : String) :
    Option PhysFile :=
  (st.docs.find? fun d => decide (d.uri = remoteDataObject)).bind fun d =>
    d.physFile

/-- Embedding of `processRemoteDataObject` (src/unnamed/part_004 lines
103-143; the src/lib/harvest.js variant at lines 102-136 is identical except
that it performs no `deleteCredentials` calls).  The outcome of
`getLinkedUrls` (file read plus RDFa link extraction) is an external effect
and enters as the `extraction` parameter; `.error` models the exception path
caught at the bottom of the function.  Control flow: with a physical file and
successful extraction, the document is marked collected; if urls were found
they are prepared for download; otherwise, if the collection is done, the
results container is appended, credentials deleted and the task set to
success — without reading the task's current status first.  With no physical
file, or on an extraction error, credentials are deleted and the task is set
to failed — again without reading its current status. -/
def processRemoteDataObject (st : CollState) (remoteDataObject : String)
    (extraction : Except String (List String)) (fresh : Nat) : CollState :=
  match getPhysicalFile st remoteDataObject with
  | some _ =>
    match extraction with
    | .error _ => setTaskStatus (deleteCredentials st) TASK_STATUS_FAILED
    | .ok urls =>
      let st1 := { st with
        docs := updateDocStatus st.docs remoteDataObject REMOTE_COLLECTED_STATUS }
      if !urls.isEmpty then
        { st1 with docs := prepareNewDownloads urls st1.docs fresh }
      else if isHarvestingCollectionDone st1.docs remoteDataObject then
        setTaskStatus
          (deleteCredentials (appendCollectedFilesToTaskResultsContainer st1))
          TASK_STATUS_SUCCESS
      else st1
  | none => setTaskStatus (deleteCredentials st) TASK_STATUS_FAILED

/-- Embedding of `hasRemoteObjectCollected` (src/lib/harvest.js lines
477-500): the binding count (truthy) of members of the collection whose
status is collected. -/
def hasRemoteObjectCollected (docs : List Doc) : Bool :=
  !(docs.filter fun d => decide (d.status = REMOTE_COLLECTED_STATUS)).isEmpty

/-- A terminal task status, as tested by `handleDownloadFailure` line 429. -/
def isTerminalTaskStatus (status : String) : Bool :=
  status == TASK_STATUS_SUCCESS || status == TASK_STATUS_FAILED

/-- One entry of the batch handled by `handleDownloadFailure`: a failed
remote data object paired with its collection, as built by the
`Promise.all` over `getHarvestingCollection` (lines 416-422). -/
structure FailEntry where
  remoteDataObject : String
  collection : String
deriving DecidableEq, Repr

/-- Result of the delayed callback of `handleDownloadFailure`: the updated
collections, the number of `INTERNAL_QUEUE.addJob` re-enqueues of the whole
original batch, and whether the callback returned early from inside the
loop. -/
structure MonitorResult where
  state : List CollState
  requeues : Nat
  returnedEarly : Bool
deriving DecidableEq, Repr

/-- The collection bound to a URI in the store (collections are keyed by
their URI). -/
def findColl (sts : List CollState) (uri : String) : Option CollState :=
  sts.find? fun c => decide (c.uri = uri)

/-- Update the collection(s) bound to a URI. -/
def updateColl (sts : List CollState) (uri : String)
    (f : CollState → CollState) : List CollState :=
  sts.map fun c => if c.uri = uri then f c else c

/-- Finalization as success used by `handleDownloadFailure` lines 433-435:
append the collected files to the task results container, then set the task
status to success.  No credential deletion happens on this path. -/
def monitorFinalizeSuccess (c : CollState) : CollState :=
  setTaskStatus (appendCollectedFilesToTaskResultsContainer c)
    TASK_STATUS_SUCCESS

/-- Finalization as failure used by `handleDownloadFailure` line 438. -/
def monitorFinalizeFailed (c : CollState) : CollState :=
  setTaskStatus c TASK_STATUS_FAILED

/-- Embedding of the delayed `for` loop of `handleDownloadFailure`
(src/lib/harvest.js lines 423-447).  Per entry: when the collection is done
(excluding the failed document) and the owning task is already terminal, the
callback executes `return`, ending the whole loop; when done and the
collection has a collected member, the task is finalized as success; when
done with no collected member, as failure; when not done, the whole original
batch is re-enqueued on the internal queue (counted in `requeues`) and the
loop continues.  An entry whose collection URI is absent from the store
cannot occur: `getHarvestingCollection` would already have thrown while
building the batch; such an entry is skipped. -/
def handleDownloadFailureLoop (sts : List CollState) :
    List FailEntry → MonitorResult
  | [] => ⟨sts, 0, false⟩
  | e :: rest =>
    match findColl sts e.collection with
    | none => handleDownloadFailureLoop sts rest
    | some c =>
      if isHarvestingCollectionDone c.docs e.remoteDataObject then
        if isTerminalTaskStatus c.taskStatus then
          ⟨sts, 0, true⟩
        else if hasRemoteObjectCollected c.docs then
          handleDownloadFailureLoop
            (updateColl sts e.collection monitorFinalizeSuccess) rest
        else
          handleDownloadFailureLoop
            (updateColl sts e.collection monitorFinalizeFailed) rest
      else
        let r := handleDownloadFailureLoop sts rest
        ⟨r.state, r.requeues + 1, r.returnedEarly⟩

/-- Result of a successful clone by
`attachClonedAuthenticationConfiguraton`: the three freshly minted URIs (the
configuration, its security scheme and its secrets node) and the secret
values copied from the source by the INSERT/WHERE query. -/
structure CloneResult where
  authConf : String
  scheme : String
  secrets : String
  basic : Option BasicCreds
  oauth : Option OauthCreds
deriving DecidableEq, Repr

/-- Embedding of `attachClonedAuthenticationConfiguraton`
(src/lib/credential-helpers.js lines 177-259).  The function mints five
fresh URIs from uuids (modelled by the parameters `u1`–`u5`, in call order).
`getAuthInfoQuery` looks up the collection's configuration, restricted by a
`VALUES ?secType` clause to the two supported shapes; when nothing matches
(`!authData`) the function returns null without writing.  The basic branch
clones the configuration under the new URIs, copying username and password;
the OAuth2 branch copies clientId and clientSecret; the final `else` throws
`Unsupported Security type`. -/
def attachClonedAuthenticationConfiguraton
    (auth : Option AuthenticationConfiguration)
    (u1 u2 u3 u4 u5 : String) : Except String (Option CloneResult) :=
  let newAuthConfUri :=
    "http://data.lblod.info/id/authentication-configurations/" ++ u1
  let newOauth2SecurityScheme :=
    "http://data.lblod.info/id/oauth2-security-schemes/" ++ u2
  let newOauth2Creds :=
    "http://data.lblod.info/id/oauth2-credentials/" ++ u3
  let newBasicSecurityScheme :=
    "http://data.lblod.info/id/basic-security-schemes/" ++ u4
  let newBasicCreds :=
    "http://data.lblod.info/id/basic-authentication-credentials/" ++ u5
  let authData := auth.bind fun c =>
    if c.secType = BASIC_AUTH ∨ c.secType = OAUTH2 then some c else none
  match authData with
  | none => .ok none
  | some c =>
    if c.secType = BASIC_AUTH then
      .ok (some ⟨newAuthConfUri, newBasicSecurityScheme, newBasicCreds,
        c.basic, none⟩)
    else if c.secType = OAUTH2 then
      .ok (some ⟨newAuthConfUri, newOauth2SecurityScheme, newOauth2Creds,
        none, c.oauth⟩)
    else
      .error ("Unsupported Security type " ++ c.secType)

/-! ### ProcessingQueue (the class appended to src/lib/harvest.js,
lines 523-558)

Jobs are modelled as a numeric identity paired with whether their action
resolves (`true`) or rejects (`false`).  `run` is embedded twice: first as
the deterministic drain of a fixed queue, then as a small-step system that
also covers run invocations racing with completions and enqueues. -/

/-- Result of draining the queue: which job actions ran (in order), which
error handlers were invoked, and whether the polling loop is still alive
(i.e. some future `run` invocation is scheduled). -/
structure RunResult where
  executed : List Nat
  errored : List Nat
  alive : Bool
deriving DecidableEq, Repr

/-- Deterministic drain of `ProcessingQueue.run` over a fixed queue.  An
empty queue hits the `else` branch: `setTimeout` re-schedules `run`, so the
loop stays alive having executed nothing.  A job whose action resolves is
awaited, then `this.run()` is invoked (it sees `executing === true` and
schedules the poll that later drains the rest), and `finally` clears the
flag.  A job whose action rejects reaches the `catch`: its `onError` handler
runs, `finally` clears the flag, and the function returns without invoking
`this.run()` and without scheduling any timeout — no further invocation
exists, so the loop is dead and the remaining jobs never run. -/
def run : List (Nat × Bool) → RunResult
  | [] => ⟨[], [], true⟩
  | (i, ok) :: rest =>
    if ok then
      let r := run rest
      ⟨i :: r.executed, r.errored, r.alive⟩
    else
      ⟨[i], [i], false⟩

/-- Embedding of `ProcessingQueue.addJob` (lines 552-557): push the job at
the end of the queue; nothing is executed. -/
def addJob (queue : List (Nat × Bool)) (job : Nat × Bool) :
    List (Nat × Bool) :=
  queue ++ [job]

/-- Small-step state of a ProcessingQueue: the queue, the `executing` flag,
the multiset of job actions currently in flight, and the number of scheduled
future `run` invocations (direct call or pending `setTimeout`). -/
structure QState where
  queue : List (Nat × Bool)
  executing : Bool
  running : List (Nat × Bool)
  pending : Nat
deriving DecidableEq, Repr

/-- Small-step transitions of a ProcessingQueue, from the code of `run` and
`addJob`.  A scheduled `run` invocation fires atomically up to its first
await: either it pops the oldest job and raises the `executing` flag
(`firePop`), or — queue empty or a job already executing — it re-schedules
itself via `setTimeout` (`fireIdle`).  A running job's action then either
resolves (`completeOk`: `this.run()` schedules one more invocation, `finally`
clears the flag) or rejects (`completeFail`: `onError` runs, `finally` clears
the flag, nothing is re-scheduled).  `enqueue` is `addJob` from any caller. -/
inductive QStep : QState → QState → Prop where
  | firePop (s : QState) (j : Nat × Bool) (rest : List (Nat × Bool)) :
      0 < s.pending → s.executing = false → s.queue = j :: rest →
      QStep s ⟨rest, true, j :: s.running, s.pending - 1⟩
  | fireIdle (s : QState) :
      0 < s.pending → (s.queue = [] ∨ s.executing = true) →
      QStep s ⟨s.queue, s.executing, s.running, s.pending - 1 + 1⟩
  | completeOk (s : QState) (j : Nat × Bool) (rs : List (Nat × Bool)) :
      s.running = j :: rs → j.2 = true →
      QStep s ⟨s.queue, false, rs, s.pending + 1⟩
  | completeFail (s : QState) (j : Nat × Bool) (rs : List (Nat × Bool)) :
      s.running = j :: rs → j.2 = false →
      QStep s ⟨s.queue, false, rs, s.pending⟩
  | enqueue (s : QState) (j : Nat × Bool) :
      QStep s ⟨s.queue ++ [j], s.executing, s.running, s.pending⟩

/-- State created by the constructor (lines 524-528): empty queue, a first
`run()` invocation scheduled (it runs with `this.executing` still undefined,
a falsy value, finds the queue empty and schedules the poll), then
`executing` set to false. -/
def initQState : QState := ⟨[], false, [], 1⟩

/-- Reachability from the constructor state. -/
def ReachableQ (s : QState) : Prop :=
  Relation.ReflTransGen QStep initQState s

/-! ### Triple-level model of `updateHarvestStatus`
(src/lib/harvest.js lines 247-274) -/

def adms_status : String := "http://www.w3.org/ns/adms#status"

def dct_modified : String := "http://purl.org/dc/terms/modified"

/-- One quad of the store: named graph, subject, predicate, object. -/
structure Triple where
  g : String
  s : String
  p : String
  o : String
deriving DecidableEq, Repr

/-- Embedding of the `updateHarvestStatus` DELETE/INSERT/WHERE query.  The
WHERE clause binds the given URI as subject and matches its adms:status in
each graph (OPTIONAL dct:modified alongside).  Per matched graph, the DELETE
template removes status and modified triples of the subject, and the INSERT
template writes the new status and the current timestamp `now`.  With no
matching status triple there is no solution: nothing is deleted and nothing
is inserted. -/
def updateHarvestStatus (store : List Triple) (uri status now : String) :
    List Triple :=
  let gs := (store.filter fun t =>
    decide (t.s = uri ∧ t.p = adms_status)).map fun t => t.g
  let kept := store.filter fun t =>
    !decide (t.s = uri ∧ (t.p = adms_status ∨ t.p = dct_modified) ∧ t.g ∈ gs)
  let inserted := gs.dedup.flatMap fun g =>
    [⟨g, uri, adms_status, status⟩, ⟨g, uri, dct_modified, now⟩]
  kept ++ inserted

/-! ### Derived definitions and concrete states used by the claim
theorems -/
/-- Number of documents of the collection carrying a given nie:url. -/
def countUrl (u : String) (docs : List Doc) : Nat :=
  (docs.filter fun d => decide (d.url = u)).length

/-- Invariant of the ProcessingQueue step system: at most one job action in
flight, and the `executing` flag is raised exactly while one is. -/
def QInv (s : QState) : Prop :=
  s.running.length ≤ 1 ∧ (s.executing = true ↔ s.running ≠ [])

/-- The task status written by `startCollectingTasks` when a task is
claimed (STATUS_BUSY in src/unnamed/part_000). -/
def STATUS_BUSY : String := "http://redpencil.data.gift/id/concept/JobStatus/busy"

/-- The remote status written by the download service on permanent failure
(FILE_DOWNLOAD_FAILURE in src/unnamed/part_000). -/
def REMOTE_FAILURE_STATUS : String :=
  "http://lblod.data.gift/file-download-statuses/failure"

/-- Concrete collection for the terminal branch of C4: complete (one
collected document besides the failed trigger), task already failed. -/
def monCollTerminal : CollState :=
  ⟨"http://coll/1",
    [⟨"http://rdo/1", "http://a.test/x", REMOTE_COLLECTED_STATUS,
      some ⟨"a.html", "12"⟩⟩,
     ⟨"http://rdo/2", "http://a.test/y", REMOTE_FAILURE_STATUS, none⟩],
    "http://task/1", TASK_STATUS_FAILED, none, []⟩

/-- Same collection with a busy task: the success-finalization branch. -/
def monCollBusy : CollState :=
  ⟨"http://coll/1",
    [⟨"http://rdo/1", "http://a.test/x", REMOTE_COLLECTED_STATUS,
      some ⟨"a.html", "12"⟩⟩,
     ⟨"http://rdo/2", "http://a.test/y", REMOTE_FAILURE_STATUS, none⟩],
    "http://task/1", STATUS_BUSY, none, []⟩

/-- Complete collection with no collected document, busy task: the
failure-finalization branch. -/
def monCollNoneCollected : CollState :=
  ⟨"http://coll/2",
    [⟨"http://rdo/3", "http://a.test/z", REMOTE_FAILURE_STATUS, none⟩],
    "http://task/2", STATUS_BUSY, none, []⟩

/-- Incomplete collection (one document still ongoing): the re-enqueue
branch. -/
def monCollOngoing : CollState :=
  ⟨"http://coll/3",
    [⟨"http://rdo/4", "http://a.test/w", REMOTE_ONGOING_STATUS, none⟩,
     ⟨"http://rdo/5", "http://a.test/v", REMOTE_FAILURE_STATUS, none⟩],
    "http://task/3", STATUS_BUSY, none, []⟩

/-- First collection of the C10 witness batch: complete, task already
failed. -/
def batchColl1 : CollState :=
  ⟨"http://batch-coll/1",
    [⟨"http://rdo/6", "http://a.test/x", REMOTE_FAILURE_STATUS, none⟩],
    "http://task/4", TASK_STATUS_FAILED, none, []⟩

/-- Second collection of the C10 witness batch: complete, with a collected
document, its task still busy — it would be finalized were it processed. -/
def batchColl2 : CollState :=
  ⟨"http://batch-coll/2",
    [⟨"http://rdo/7", "http://a.test/y", REMOTE_COLLECTED_STATUS,
      some ⟨"b.html", "34"⟩⟩,
     ⟨"http://rdo/8", "http://a.test/z", REMOTE_FAILURE_STATUS, none⟩],
    "http://task/5", STATUS_BUSY, none, []⟩

/-- A busy single-document collection whose document downloaded successfully
and has a physical file. -/
def busySingleColl : CollState :=
  ⟨"http://coll/9",
    [⟨"http://rdo/9", "http://a.test/x", REMOTE_SUCCESS_STATUS,
      some ⟨"x.html", "7"⟩⟩],
    "http://task/9", STATUS_BUSY, none, []⟩

/-- The file-metadata selection of
`appendCollectedFilesToTaskResultsContainer`: one entry per document of the
collection whose physical file carries nfo:fileName and nfo:fileSize. -/
def collectedFileEntries (docs : List Doc) : List ResultEntry :=
  docs.filterMap fun d =>
    d.physFile.map fun p => ResultEntry.mk d.uri p.fileName p.fileSize

/-! ### Claim theorems -/
/-- Completeness test characterisation used by several claim theorems. -/
theorem isHarvestingCollectionDone_iff (docs : List Doc) (trigger : String) :
    isHarvestingCollectionDone docs trigger = true ↔
      ∀ d ∈ docs, d.uri ≠ trigger → d.status ∉ inFlightStatuses := by
  unfold isHarvestingCollectionDone
  rw [List.isEmpty_iff, List.filter_eq_nil_iff]
  constructor
  · intro h d hd hne
    have := h d hd
    simp only [decide_eq_true_eq] at this
    intro hmem
    exact this ⟨hne, hmem⟩
  · intro h d hd
    simp only [decide_eq_true_eq]
    rintro ⟨hne, hmem⟩
    exact h d hd hne hmem

/-- C1: for every Collection and triggering Document, the completeness test
returns true iff every Document other than the trigger has a status outside
the in-flight set (ready-to-be-cached, ongoing, success); and adding one more
Document whose status is in that set (and whose URI is not the trigger) makes
the test return false. -/
theorem C1_completeness_law (docs : List Doc) (trigger : String) :
    (isHarvestingCollectionDone docs trigger = true ↔
      ∀ d ∈ docs, d.uri ≠ trigger → d.status ∉ inFlightStatuses) ∧
    (∀ d : Doc, d.uri ≠ trigger → d.status ∈ inFlightStatuses →
      isHarvestingCollectionDone (d :: docs) trigger = false) := by
  refine ⟨isHarvestingCollectionDone_iff docs trigger, ?_⟩
  intro d hne hmem
  rw [Bool.eq_false_iff]
  intro h
  rw [isHarvestingCollectionDone_iff] at h
  exact h d (List.mem_cons_self d docs) hne hmem

/-- Witness for C1 at a concrete collection: two documents, one collected and
one (the trigger) successful; the test is complete, and adding an ongoing
document flips it to false. -/
theorem C1_completeness_law_witness :
    isHarvestingCollectionDone
      [⟨"http://rdo/1", "http://a.test/x", REMOTE_COLLECTED_STATUS, none⟩,
       ⟨"http://rdo/2", "http://a.test/y", REMOTE_SUCCESS_STATUS, none⟩]
      "http://rdo/2" = true ∧
    isHarvestingCollectionDone
      (⟨"http://rdo/3", "http://a.test/z", REMOTE_ONGOING_STATUS, none⟩ ::
       [⟨"http://rdo/1", "http://a.test/x", REMOTE_COLLECTED_STATUS, none⟩,
        ⟨"http://rdo/2", "http://a.test/y", REMOTE_SUCCESS_STATUS, none⟩])
      "http://rdo/2" = false := by
  constructor
  · rw [(C1_completeness_law _ "http://rdo/2").1]
    decide
  · exact (C1_completeness_law _ "http://rdo/2").2
      ⟨"http://rdo/3", "http://a.test/z", REMOTE_ONGOING_STATUS, none⟩
      (by decide) (by decide)

/-- C9: for a URI with no adms:status triple anywhere in the store,
`updateHarvestStatus` leaves the store completely unchanged — the query can
only replace an existing status, never create a first one. -/
theorem C9_updateHarvestStatus_frame (store : List Triple)
    (uri status now : String)
    (h : ∀ t ∈ store, ¬(t.s = uri ∧ t.p = adms_status)) :
    updateHarvestStatus store uri status now = store := by
  unfold updateHarvestStatus
  have hgs : (store.filter fun t => decide (t.s = uri ∧ t.p = adms_status)) = [] := by
    rw [List.filter_eq_nil_iff]
    intro t ht
    simpa using h t ht
  rw [hgs]
  simp only [List.map_nil, List.dedup_nil, List.flatMap_nil, List.append_nil]
  rw [List.filter_eq_self]
  intro t ht
  simp

/-- Witness for C9: a store holding only a dct:modified triple for the
resource is untouched by a status update of that resource. -/
theorem C9_updateHarvestStatus_frame_witness :
    updateHarvestStatus
      [⟨"http://g", "http://rdo/1", dct_modified, "2021-01-01"⟩]
      "http://rdo/1" TASK_STATUS_SUCCESS "2021-01-02" =
      [⟨"http://g", "http://rdo/1", dct_modified, "2021-01-01"⟩] :=
  C9_updateHarvestStatus_frame _ _ _ _ (by decide)

/-! ### C6: URL deduplication in prepareNewDownloads -/

theorem hasBeenCollected_eq_false_iff (u : String) (docs : List Doc) :
    hasBeenCollected u docs = false ↔ countUrl u docs = 0 := by
  unfold hasBeenCollected countUrl
  simp [List.isEmpty_iff, List.length_eq_zero]

theorem countUrl_append_single (u : String) (docs : List Doc) (d : Doc) :
    countUrl u (docs ++ [d]) =
      countUrl u docs + (if d.url = u then 1 else 0) := by
  unfold countUrl
  rw [List.filter_append, List.length_append]
  by_cases h : d.url = u <;> simp [List.filter, h]

/-- Once a URL is present, `prepareNewDownloads` never adds another document
with it. -/
theorem prepareNewDownloads_count_stable (u : String) :
    ∀ (urls : List String) (docs : List Doc) (fresh : Nat),
      1 ≤ countUrl u docs →
      countUrl u (prepareNewDownloads urls docs fresh) = countUrl u docs := by
  intro urls
  induction urls with
  | nil => intro docs fresh _; rfl
  | cons url rest ih =>
    intro docs fresh h
    unfold prepareNewDownloads
    by_cases hc : hasBeenCollected url docs = true
    · simp only [hc, if_true]
      exact ih docs fresh h
    · have hc' : hasBeenCollected url docs = false := Bool.eq_false_iff.mpr hc
      simp only [hc', Bool.false_eq_true, if_false]
      have hne : url ≠ u := by
        intro e
        subst e
        rw [hasBeenCollected_eq_false_iff] at hc'
        omega
      have hcount : countUrl u (docs ++
          [⟨mkRemoteDataObjectUri fresh, url, REMOTE_READY_STATUS, none⟩]) =
          countUrl u docs := by
        rw [countUrl_append_single]
        simp [hne]
      rw [ih _ (fresh + 1) (by rw [hcount]; exact h), hcount]

/-- A URL absent from the collection that occurs in the discovered list ends
up with exactly one document. -/
theorem prepareNewDownloads_count_new (u : String) :
    ∀ (urls : List String) (docs : List Doc) (fresh : Nat),
      countUrl u docs = 0 → u ∈ urls →
      countUrl u (prepareNewDownloads urls docs fresh) = 1 := by
  intro urls
  induction urls with
  | nil => intro docs fresh _ hmem; cases hmem
  | cons url rest ih =>
    intro docs fresh h hmem
    unfold prepareNewDownloads
    by_cases he : url = u
    · subst he
      have hc : hasBeenCollected url docs = false :=
        (hasBeenCollected_eq_false_iff url docs).mpr h
      simp only [hc, Bool.false_eq_true, if_false]
      have hcount : countUrl url (docs ++
          [⟨mkRemoteDataObjectUri fresh, url, REMOTE_READY_STATUS, none⟩]) = 1 := by
        rw [countUrl_append_single, h]
        simp
      rw [prepareNewDownloads_count_stable url rest _ (fresh + 1)
        (by rw [hcount]), hcount]
    · have hmem' : u ∈ rest := by
        rcases List.mem_cons.mp hmem with h1 | h1
        · exact absurd h1.symm he
        · exact h1
      by_cases hc : hasBeenCollected url docs = true
      · simp only [hc, if_true]
        exact ih docs fresh h hmem'
      · have hc' : hasBeenCollected url docs = false := Bool.eq_false_iff.mpr hc
        simp only [hc', Bool.false_eq_true, if_false]
        have hcount : countUrl u (docs ++
            [⟨mkRemoteDataObjectUri fresh, url, REMOTE_READY_STATUS, none⟩]) =
            0 := by
          rw [countUrl_append_single, h]
          simp [he]
        exact ih _ (fresh + 1) hcount hmem'

/-- C6: discovering a URL any number of times yields exactly one Document
with it — a URL not yet in the Collection that occurs in the discovered list
ends up with exactly one Document, and a URL already present gains no further
Document (prepareNewDownloads inserts only when no Document with exactly that
nie:url is already part of the Collection). -/
theorem C6_url_deduplication (u : String) (urls : List String)
    (docs : List Doc) (fresh : Nat) :
    (countUrl u docs = 0 → u ∈ urls →
      countUrl u (prepareNewDownloads urls docs fresh) = 1) ∧
    (1 ≤ countUrl u docs →
      countUrl u (prepareNewDownloads urls docs fresh) = countUrl u docs) := by
  exact ⟨fun h hm => prepareNewDownloads_count_new u urls docs fresh h hm,
    fun h => prepareNewDownloads_count_stable u urls docs fresh h⟩

/-- Witness for C6: a duplicated new link plus an already-present link,
discovered twice, produce exactly one document each. -/
theorem C6_url_deduplication_witness :
    (countUrl "http://a.test/y"
        [⟨"http://rdo/1", "http://a.test/x", REMOTE_COLLECTED_STATUS, none⟩] = 0 ∧
      countUrl "http://a.test/y"
        (prepareNewDownloads
          ["http://a.test/y", "http://a.test/x", "http://a.test/y"]
          [⟨"http://rdo/1", "http://a.test/x", REMOTE_COLLECTED_STATUS, none⟩] 7) = 1) ∧
    (1 ≤ countUrl "http://a.test/x"
        [⟨"http://rdo/1", "http://a.test/x", REMOTE_COLLECTED_STATUS, none⟩] ∧
      countUrl "http://a.test/x"
        (prepareNewDownloads
          ["http://a.test/y", "http://a.test/x", "http://a.test/y"]
          [⟨"http://rdo/1", "http://a.test/x", REMOTE_COLLECTED_STATUS, none⟩] 7) =
        countUrl "http://a.test/x"
          [⟨"http://rdo/1", "http://a.test/x", REMOTE_COLLECTED_STATUS, none⟩]) := by
  constructor
  · exact ⟨by decide,
      (C6_url_deduplication "http://a.test/y" _ _ 7).1 (by decide) (by decide)⟩
  · exact ⟨by decide,
      (C6_url_deduplication "http://a.test/x" _ _ 7).2 (by decide)⟩

/-! ### C3 and C8: ProcessingQueue behaviour -/

/-- C3: evaluating the run loop on a queue holding a failing job followed by
a succeeding one.  The failing job's error handler is invoked, but the loop
is not rescheduled after the catch (no `this.run()` call and no `setTimeout`
on that path), so the loop dies and the job enqueued after the failing one is
never executed — contradicting the claim that a failing job never blocks or
drops subsequent jobs. -/
theorem C3_failing_job_drops_rest :
    run [(0, false), (1, true)] = ⟨[0], [0], false⟩ ∧
      1 ∉ (run [(0, false), (1, true)]).executed := by
  decide

theorem qInv_init : QInv initQState := by
  constructor <;> simp [initQState]

theorem qInv_step {s s' : QState} (h : QStep s s') (hs : QInv s) : QInv s' := by
  obtain ⟨h1, h2⟩ := hs
  cases h with
  | firePop j rest hp hex hq =>
    have hrun : s.running = [] := by
      by_contra hr
      have hx := h2.mpr hr
      rw [hex] at hx
      exact Bool.false_ne_true hx
    constructor
    · simp [hrun]
    · simp [hrun]
  | fireIdle hp hcond =>
    exact ⟨h1, h2⟩
  | completeOk j rs hr hok =>
    have hrs : rs = [] := by
      rw [hr] at h1
      simp only [List.length_cons] at h1
      exact List.length_eq_zero.mp (by omega)
    constructor
    · simp [hrs]
    · simp [hrs]
  | completeFail j rs hr hok =>
    have hrs : rs = [] := by
      rw [hr] at h1
      simp only [List.length_cons] at h1
      exact List.length_eq_zero.mp (by omega)
    constructor
    · simp [hrs]
    · simp [hrs]
  | enqueue j =>
    exact ⟨h1, h2⟩

theorem qInv_reachable {s : QState} (h : ReachableQ s) : QInv s := by
  unfold ReachableQ at h
  induction h with
  | refl => exact qInv_init
  | tail _ hstep ih => exact qInv_step hstep ih

/-- Successful jobs drain in FIFO order and keep the loop alive. -/
theorem run_all_ok :
    ∀ q : List (Nat × Bool), (∀ j ∈ q, j.2 = true) →
      (run q).executed = q.map Prod.fst ∧ (run q).alive = true := by
  intro q
  induction q with
  | nil => intro _; exact ⟨rfl, rfl⟩
  | cons j rest ih =>
    intro h
    obtain ⟨i, ok⟩ := j
    have hok : ok = true := h (i, ok) (List.mem_cons_self _ _)
    subst hok
    have := ih fun x hx => h x (List.mem_cons_of_mem _ hx)
    simp only [run, if_true, List.map_cons]
    exact ⟨by rw [this.1], this.2⟩

/-- C8: addJob appends and executes nothing; in every state reachable from
the constructor state, at most one job action is in flight; an empty queue
leaves the loop alive (polling); and a queue of jobs whose actions all
resolve is executed exactly in FIFO order of enqueue. -/
theorem C8_queue_discipline :
    (∀ (q : List (Nat × Bool)) (j : Nat × Bool), addJob q j = q ++ [j]) ∧
    (∀ s : QState, ReachableQ s → s.running.length ≤ 1) ∧
    (run [] = ⟨[], [], true⟩) ∧
    (∀ q : List (Nat × Bool), (∀ j ∈ q, j.2 = true) →
      (run q).executed = q.map Prod.fst ∧ (run q).alive = true) := by
  exact ⟨fun _ _ => rfl, fun s hs => (qInv_reachable hs).1, rfl, run_all_ok⟩

/-- Witness for C8: the state reached by enqueuing one job and firing the
scheduled run invocation has one job in flight; a concrete queue of two
resolving jobs drains in order. -/
theorem C8_queue_discipline_witness :
    (⟨[], true, [(5, true)], 0⟩ : QState).running.length ≤ 1 ∧
      (run [(5, true), (7, true)]).executed = [5, 7] := by
  constructor
  · refine C8_queue_discipline.2.1 _ ?_
    refine Relation.ReflTransGen.tail (Relation.ReflTransGen.tail
      Relation.ReflTransGen.refl (QStep.enqueue initQState (5, true))) ?_
    exact QStep.firePop ⟨[(5, true)], false, [], 1⟩ (5, true) [] (by decide)
      rfl rfl
  · exact (C8_queue_discipline.2.2.2 [(5, true), (7, true)] (by decide)).1

/-! ### C4 and C10: failure monitor behaviour -/

/-- C4: on a failed-document entry, when the collection is complete the
monitor does nothing if the owning task is already terminal; otherwise it
finalizes the task as success (appending the results container) when some
document of the collection is collected, and as failed when none is; when
the collection is not complete it re-enqueues the same check (one addJob on
the internal queue, firing after the fixed delay) instead of failing. -/
theorem C4_failure_monitor (sts : List CollState) (e : FailEntry)
    (c : CollState) (hfind : findColl sts e.collection = some c) :
    (isHarvestingCollectionDone c.docs e.remoteDataObject = true →
      isTerminalTaskStatus c.taskStatus = true →
      handleDownloadFailureLoop sts [e] = ⟨sts, 0, true⟩) ∧
    (isHarvestingCollectionDone c.docs e.remoteDataObject = true →
      isTerminalTaskStatus c.taskStatus = false →
      hasRemoteObjectCollected c.docs = true →
      handleDownloadFailureLoop sts [e] =
        ⟨updateColl sts e.collection monitorFinalizeSuccess, 0, false⟩) ∧
    (isHarvestingCollectionDone c.docs e.remoteDataObject = true →
      isTerminalTaskStatus c.taskStatus = false →
      hasRemoteObjectCollected c.docs = false →
      handleDownloadFailureLoop sts [e] =
        ⟨updateColl sts e.collection monitorFinalizeFailed, 0, false⟩) ∧
    (isHarvestingCollectionDone c.docs e.remoteDataObject = false →
      handleDownloadFailureLoop sts [e] = ⟨sts, 1, false⟩) := by
  refine ⟨?_, ?_, ?_, ?_⟩ <;> intro hdone
  · intro hterm
    simp [handleDownloadFailureLoop, hfind, hdone, hterm]
  · intro hterm hcoll
    simp [handleDownloadFailureLoop, hfind, hdone, hterm, hcoll]
  · intro hterm hcoll
    simp [handleDownloadFailureLoop, hfind, hdone, hterm, hcoll]
  · simp [handleDownloadFailureLoop, hfind, hdone]

/-- Witness for C4: the four branches of the monitor at concrete states. -/
theorem C4_failure_monitor_witness :
    (handleDownloadFailureLoop [monCollTerminal]
        [⟨"http://rdo/2", "http://coll/1"⟩] = ⟨[monCollTerminal], 0, true⟩) ∧
    ((handleDownloadFailureLoop [monCollBusy]
        [⟨"http://rdo/2", "http://coll/1"⟩]).state.map CollState.taskStatus =
      [TASK_STATUS_SUCCESS]) ∧
    ((handleDownloadFailureLoop [monCollNoneCollected]
        [⟨"http://rdo/3", "http://coll/2"⟩]).state.map CollState.taskStatus =
      [TASK_STATUS_FAILED]) ∧
    (handleDownloadFailureLoop [monCollOngoing]
        [⟨"http://rdo/5", "http://coll/3"⟩] = ⟨[monCollOngoing], 1, false⟩) := by
  refine ⟨?_, ?_, ?_, ?_⟩
  · exact (C4_failure_monitor [monCollTerminal] ⟨"http://rdo/2", "http://coll/1"⟩
      monCollTerminal (by decide)).1 (by decide) (by decide)
  · rw [(C4_failure_monitor [monCollBusy] ⟨"http://rdo/2", "http://coll/1"⟩
      monCollBusy (by decide)).2.1 (by decide) (by decide) (by decide)]
    decide
  · rw [(C4_failure_monitor [monCollNoneCollected]
      ⟨"http://rdo/3", "http://coll/2"⟩ monCollNoneCollected (by decide)).2.2.1
      (by decide) (by decide) (by decide)]
    decide
  · exact (C4_failure_monitor [monCollOngoing] ⟨"http://rdo/5", "http://coll/3"⟩
      monCollOngoing (by decide)).2.2.2 (by decide)

/-- C10: when the delayed check of a multi-entry batch reaches an entry
whose collection is complete but whose owning task is already terminal, the
callback returns for the whole batch: the state is unchanged and no entry —
including all remaining ones — is finalized or re-enqueued. -/
theorem C10_early_return_drops_rest (sts : List CollState) (e : FailEntry)
    (rest : List FailEntry) (c : CollState)
    (hfind : findColl sts e.collection = some c)
    (hdone : isHarvestingCollectionDone c.docs e.remoteDataObject = true)
    (hterm : isTerminalTaskStatus c.taskStatus = true) :
    handleDownloadFailureLoop sts (e :: rest) = ⟨sts, 0, true⟩ := by
  simp [handleDownloadFailureLoop, hfind, hdone, hterm]

/-- Witness for C10: a batch of two failed documents; the first one's task is
already failed, so the second one's collection is neither finalized nor
re-enqueued. -/
theorem C10_early_return_drops_rest_witness :
    handleDownloadFailureLoop [batchColl1, batchColl2]
      [⟨"http://rdo/6", "http://batch-coll/1"⟩,
       ⟨"http://rdo/8", "http://batch-coll/2"⟩] =
    ⟨[batchColl1, batchColl2], 0, true⟩ :=
  C10_early_return_drops_rest [batchColl1, batchColl2]
    ⟨"http://rdo/6", "http://batch-coll/1"⟩
    [⟨"http://rdo/8", "http://batch-coll/2"⟩] batchColl1
    (by decide) (by decide) (by decide)

/-! ### C2: terminal task statuses -/

theorem appendCollected_preserves (c : CollState) :
    (appendCollectedFilesToTaskResultsContainer c).uri = c.uri ∧
    (appendCollectedFilesToTaskResultsContainer c).docs = c.docs ∧
    (appendCollectedFilesToTaskResultsContainer c).taskStatus = c.taskStatus ∧
    (appendCollectedFilesToTaskResultsContainer c).auth = c.auth := by
  unfold appendCollectedFilesToTaskResultsContainer
  dsimp only
  split <;> exact ⟨rfl, rfl, rfl, rfl⟩

theorem monitorFinalizeSuccess_uri (c : CollState) :
    (monitorFinalizeSuccess c).uri = c.uri := by
  unfold monitorFinalizeSuccess setTaskStatus
  exact (appendCollected_preserves c).1

theorem monitorFinalizeFailed_uri (c : CollState) :
    (monitorFinalizeFailed c).uri = c.uri := rfl

theorem findColl_mem {sts : List CollState} {u : String} {c : CollState}
    (h : findColl sts u = some c) : c ∈ sts ∧ c.uri = u := by
  unfold findColl at h
  refine ⟨List.mem_of_find?_eq_some h, ?_⟩
  have := List.find?_some h
  simpa using this

theorem uri_inj {sts : List CollState} (hnd : (sts.map CollState.uri).Nodup)
    {x y : CollState} (hx : x ∈ sts) (hy : y ∈ sts) (he : x.uri = y.uri) :
    x = y :=
  List.inj_on_of_nodup_map hnd hx hy he

theorem updateColl_map_uri (sts : List CollState) (u : String)
    (f : CollState → CollState) (hf : ∀ c, (f c).uri = c.uri) :
    (updateColl sts u f).map CollState.uri = sts.map CollState.uri := by
  unfold updateColl
  rw [List.map_map]
  apply List.map_congr_left
  intro c _
  by_cases h : c.uri = u <;> simp [h, hf]

theorem mem_updateColl_of_ne {sts : List CollState} {u : String}
    {c : CollState} (hc : c ∈ sts) (hne : c.uri ≠ u)
    (f : CollState → CollState) : c ∈ updateColl sts u f := by
  unfold updateColl
  exact List.mem_map.mpr ⟨c, hc, by simp [hne]⟩

/-- The failure monitor never changes a collection whose task is already
terminal: its guard returns before touching such a task, and finalization is
only applied to a task it has just observed to be non-terminal (collection
URIs are assumed distinct, as a collection is one node of the store). -/
theorem monitor_preserves_terminal (batch : List FailEntry) :
    ∀ (sts : List CollState), (sts.map CollState.uri).Nodup →
      ∀ c ∈ sts, isTerminalTaskStatus c.taskStatus = true →
      ∀ c' ∈ (handleDownloadFailureLoop sts batch).state,
        c'.uri = c.uri → c' = c := by
  induction batch with
  | nil =>
    intro sts hnd c hc _ c' hc' he
    exact uri_inj hnd hc' hc he
  | cons e rest ih =>
    intro sts hnd c hc hterm c' hc' he
    cases hfind : findColl sts e.collection with
    | none =>
      simp only [handleDownloadFailureLoop, hfind] at hc'
      exact ih sts hnd c hc hterm c' hc' he
    | some c0 =>
      simp only [handleDownloadFailureLoop, hfind] at hc'
      by_cases hdone :
          isHarvestingCollectionDone c0.docs e.remoteDataObject = true
      · by_cases hterm0 : isTerminalTaskStatus c0.taskStatus = true
        · simp only [hdone, hterm0, if_true] at hc'
          exact uri_inj hnd hc' hc he
        · have hterm0f : isTerminalTaskStatus c0.taskStatus = false :=
            Bool.eq_false_iff.mpr hterm0
          have hne : c.uri ≠ e.collection := by
            intro hu
            obtain ⟨hc0mem, hc0uri⟩ := findColl_mem hfind
            have hcc0 : c = c0 := uri_inj hnd hc hc0mem (hu.trans hc0uri.symm)
            rw [hcc0, hterm0f] at hterm
            exact Bool.false_ne_true hterm
          by_cases hcoll : hasRemoteObjectCollected c0.docs = true
          · simp only [hdone, hterm0f, hcoll, if_true, Bool.false_eq_true,
              if_false] at hc'
            have hnd' : ((updateColl sts e.collection
                monitorFinalizeSuccess).map CollState.uri).Nodup := by
              rw [updateColl_map_uri _ _ _ monitorFinalizeSuccess_uri]
              exact hnd
            exact ih _ hnd' c
              (mem_updateColl_of_ne hc hne monitorFinalizeSuccess) hterm
              c' hc' he
          · have hcollf : hasRemoteObjectCollected c0.docs = false :=
              Bool.eq_false_iff.mpr hcoll
            simp only [hdone, hterm0f, hcollf, if_true, Bool.false_eq_true,
              if_false] at hc'
            have hnd' : ((updateColl sts e.collection
                monitorFinalizeFailed).map CollState.uri).Nodup := by
              rw [updateColl_map_uri _ _ _ monitorFinalizeFailed_uri]
              exact hnd
            exact ih _ hnd' c
              (mem_updateColl_of_ne hc hne monitorFinalizeFailed) hterm
              c' hc' he
      · have hdonef :
            isHarvestingCollectionDone c0.docs e.remoteDataObject = false :=
          Bool.eq_false_iff.mpr hdone
        simp only [hdonef, Bool.false_eq_true, if_false] at hc'
        exact ih sts hnd c hc hterm c' hc' he

/-- C2 counterexample: an execution of two processRemoteDataObject calls on
the same document (the second being a redelivered completion notification,
which the at-least-once transport permits).  The first call hits the
extraction-error path and sets the task to Failed; the second call processes
the still-successful document, finds the collection complete and sets the
task to Success — a transition out of the terminal Failed status caused by
an operation of this service, contradicting the claim. -/
theorem C2_counterexample :
    (processRemoteDataObject busySingleColl "http://rdo/9"
        (.error "rdfa parse failed") 0).taskStatus = TASK_STATUS_FAILED ∧
    (processRemoteDataObject
        (processRemoteDataObject busySingleColl "http://rdo/9"
          (.error "rdfa parse failed") 0)
        "http://rdo/9" (.ok []) 0).taskStatus = TASK_STATUS_SUCCESS := by
  decide

/-- C2 amended: the Failure Monitor's finalization never changes the status
of a Task already in Success or Failed (its guard returns first); but
processing a completed Document performs no such guard: processRemoteDataObject
can move a Task from Failed to Success (late or redelivered completion of a
finished Collection) and from Success to Failed (missing physical file or
processing error). -/
theorem C2_terminal_statuses_amended :
    (∀ (batch : List FailEntry) (sts : List CollState),
      (sts.map CollState.uri).Nodup →
      ∀ c ∈ sts, isTerminalTaskStatus c.taskStatus = true →
      ∀ c' ∈ (handleDownloadFailureLoop sts batch).state,
        c'.uri = c.uri → c'.taskStatus = c.taskStatus) ∧
    (∃ (st : CollState) (rdo : String),
      st.taskStatus = TASK_STATUS_FAILED ∧
      (processRemoteDataObject st rdo (.ok []) 0).taskStatus =
        TASK_STATUS_SUCCESS) ∧
    (∃ (st : CollState) (rdo : String),
      st.taskStatus = TASK_STATUS_SUCCESS ∧
      (processRemoteDataObject st rdo (.ok []) 0).taskStatus =
        TASK_STATUS_FAILED) := by
  refine ⟨?_, ?_, ?_⟩
  · intro batch sts hnd c hc hterm c' hc' he
    rw [monitor_preserves_terminal batch sts hnd c hc hterm c' hc' he]
  · refine ⟨⟨"http://coll/9",
      [⟨"http://rdo/9", "http://a.test/x", REMOTE_SUCCESS_STATUS,
        some ⟨"x.html", "7"⟩⟩],
      "http://task/9", TASK_STATUS_FAILED, none, []⟩, "http://rdo/9",
      by decide, by decide⟩
  · refine ⟨⟨"http://coll/9",
      [⟨"http://rdo/9", "http://a.test/x", REMOTE_SUCCESS_STATUS, none⟩],
      "http://task/9", TASK_STATUS_SUCCESS, none, []⟩, "http://rdo/9",
      by decide, by decide⟩

/-- Witness for the amended C2 at a concrete input: the monitor leaves the
already-failed task of `monCollTerminal` untouched. -/
theorem C2_terminal_statuses_amended_witness :
    ([monCollTerminal].map CollState.uri).Nodup ∧
    ∀ c' ∈ (handleDownloadFailureLoop [monCollTerminal]
        [⟨"http://rdo/2", "http://coll/1"⟩]).state,
      c'.uri = monCollTerminal.uri →
      c'.taskStatus = monCollTerminal.taskStatus := by
  refine ⟨by decide, ?_⟩
  exact C2_terminal_statuses_amended.1 [⟨"http://rdo/2", "http://coll/1"⟩]
    [monCollTerminal] (by decide) monCollTerminal (by decide) (by decide)

/-! ### C5: success finalization -/

theorem appendCollected_eq (c : CollState) :
    appendCollectedFilesToTaskResultsContainer c =
      if (collectedFileEntries c.docs).isEmpty then c
      else { c with resultsContainers :=
        c.resultsContainers ++ [collectedFileEntries c.docs] } := rfl

theorem collectedFileEntries_updateDocStatus (docs : List Doc)
    (uri st : String) :
    collectedFileEntries (updateDocStatus docs uri st) =
      collectedFileEntries docs := by
  unfold collectedFileEntries updateDocStatus
  rw [List.filterMap_map]
  apply List.filterMap_congr
  intro d _
  by_cases h : d.uri = uri <;> simp [h]

theorem appendCollected_containers (c : CollState)
    (h : collectedFileEntries c.docs ≠ []) :
    (appendCollectedFilesToTaskResultsContainer c).resultsContainers =
      c.resultsContainers ++ [collectedFileEntries c.docs] := by
  rw [appendCollected_eq]
  rw [if_neg (by simpa [List.isEmpty_iff] using h)]

theorem deleteCredentials_preserves (st : CollState) :
    (deleteCredentials st).uri = st.uri ∧
    (deleteCredentials st).docs = st.docs ∧
    (deleteCredentials st).taskStatus = st.taskStatus ∧
    (deleteCredentials st).resultsContainers = st.resultsContainers := by
  unfold deleteCredentials
  rcases st with ⟨u, d, tu, ts, a, rc⟩
  cases a with
  | none => exact ⟨rfl, rfl, rfl, rfl⟩
  | some cfg =>
    dsimp only
    split
    · exact ⟨rfl, rfl, rfl, rfl⟩
    · split
      · exact ⟨rfl, rfl, rfl, rfl⟩
      · exact ⟨rfl, rfl, rfl, rfl⟩

theorem deleteCredentials_auth_basic (st : CollState)
    (cfg : AuthenticationConfiguration) (h : st.auth = some cfg)
    (hb : cfg.secType = BASIC_AUTH) :
    (deleteCredentials st).auth = some { cfg with basic := none } := by
  unfold deleteCredentials
  rw [h]
  simp [hb]

/-- A busy quasi-complete collection carrying basic-auth credentials, with a
collected document owning file metadata and the permanently failed
document. -/
def credColl : CollState :=
  ⟨"http://cred-coll/1",
    [⟨"http://rdo/10", "http://a.test/x", REMOTE_COLLECTED_STATUS,
      some ⟨"c.html", "99"⟩⟩,
     ⟨"http://rdo/11", "http://a.test/y", REMOTE_FAILURE_STATUS, none⟩],
    "http://task/6", STATUS_BUSY,
    some ⟨"http://auth/1", BASIC_AUTH, some ⟨"alice", "s3cret"⟩, none⟩, []⟩

/-- C5 counterexample: a Busy to Success transition performed by the Failure
Monitor finalizes the task and appends the results container, yet the
collection's AuthenticationConfiguration — username and password included —
survives the transition, contradicting the claim that every Busy to Success
transition deletes it. -/
theorem C5_counterexample :
    ((handleDownloadFailureLoop [credColl]
        [⟨"http://rdo/11", "http://cred-coll/1"⟩]).state.map
        CollState.taskStatus = [TASK_STATUS_SUCCESS]) ∧
    ((handleDownloadFailureLoop [credColl]
        [⟨"http://rdo/11", "http://cred-coll/1"⟩]).state.map
        CollState.auth =
      [some ⟨"http://auth/1", BASIC_AUTH, some ⟨"alice", "s3cret"⟩, none⟩]) := by
  decide

/-- C5 amended: when processRemoteDataObject (the credential-aware variant of
src/unnamed/part_004) performs the Busy to Success finalization, it appends
the collected file metadata of every document owning a physical file as a
fresh results container and deletes the collection's basic-auth secrets; the
Failure Monitor's own Success finalization appends the results container but
leaves the AuthenticationConfiguration untouched. -/
theorem C5_success_finalization_amended (st : CollState) (rdo : String)
    (fresh : Nat) (cfg : AuthenticationConfiguration)
    (hphys : (getPhysicalFile st rdo).isSome = true)
    (hdone : isHarvestingCollectionDone
      (updateDocStatus st.docs rdo REMOTE_COLLECTED_STATUS) rdo = true)
    (hauth : st.auth = some cfg) (hbasic : cfg.secType = BASIC_AUTH)
    (hent : collectedFileEntries st.docs ≠ []) :
    ((processRemoteDataObject st rdo (.ok []) fresh).taskStatus =
        TASK_STATUS_SUCCESS ∧
      (processRemoteDataObject st rdo (.ok []) fresh).auth =
        some { cfg with basic := none } ∧
      (processRemoteDataObject st rdo (.ok []) fresh).resultsContainers =
        st.resultsContainers ++ [collectedFileEntries st.docs]) ∧
    (∀ c : CollState,
      (monitorFinalizeSuccess c).taskStatus = TASK_STATUS_SUCCESS ∧
      (monitorFinalizeSuccess c).auth = c.auth) := by
  have hst1 : ∀ x : CollState, x =
      { st with docs := updateDocStatus st.docs rdo REMOTE_COLLECTED_STATUS } →
      x.auth = st.auth ∧ x.resultsContainers = st.resultsContainers ∧
      x.docs = updateDocStatus st.docs rdo REMOTE_COLLECTED_STATUS := by
    intro x hx
    rw [hx]
    exact ⟨rfl, rfl, rfl⟩
  have hred : processRemoteDataObject st rdo (.ok []) fresh =
      setTaskStatus (deleteCredentials
        (appendCollectedFilesToTaskResultsContainer
          { st with docs :=
            updateDocStatus st.docs rdo REMOTE_COLLECTED_STATUS }))
        TASK_STATUS_SUCCESS := by
    obtain ⟨pf, hpf⟩ := Option.isSome_iff_exists.mp hphys
    simp only [processRemoteDataObject, hpf]
    simp [hdone]
  refine ⟨⟨?_, ?_, ?_⟩, ?_⟩
  · rw [hred]
    rfl
  · rw [hred]
    show (deleteCredentials _).auth = _
    apply deleteCredentials_auth_basic _ cfg _ hbasic
    rw [(appendCollected_preserves _).2.2.2]
    exact hauth
  · rw [hred]
    show (deleteCredentials _).resultsContainers = _
    rw [(deleteCredentials_preserves _).2.2.2]
    have hdocs :
        ({ st with
            docs := updateDocStatus st.docs rdo REMOTE_COLLECTED_STATUS } :
          CollState).docs =
          updateDocStatus st.docs rdo REMOTE_COLLECTED_STATUS :=
      rfl
    have hent2 :
        collectedFileEntries
          ({ st with
              docs := updateDocStatus st.docs rdo REMOTE_COLLECTED_STATUS } :
            CollState).docs ≠ [] := by
      rw [hdocs, collectedFileEntries_updateDocStatus]
      exact hent
    rw [appendCollected_containers _ hent2, hdocs,
      collectedFileEntries_updateDocStatus]
  · intro c
    refine ⟨rfl, ?_⟩
    show (appendCollectedFilesToTaskResultsContainer c).auth = c.auth
    exact (appendCollected_preserves c).2.2.2

/-- Witness for the amended C5: the finalization at a concrete collection
with basic-auth credentials and one collected document. -/
theorem C5_success_finalization_amended_witness :
    (processRemoteDataObject
        ⟨"http://coll/9",
          [⟨"http://rdo/9", "http://a.test/x", REMOTE_SUCCESS_STATUS,
            some ⟨"x.html", "7"⟩⟩],
          "http://task/9", STATUS_BUSY,
          some ⟨"http://auth/2", BASIC_AUTH, some ⟨"bob", "pw"⟩, none⟩, []⟩
        "http://rdo/9" (.ok []) 0).taskStatus = TASK_STATUS_SUCCESS ∧
    (processRemoteDataObject
        ⟨"http://coll/9",
          [⟨"http://rdo/9", "http://a.test/x", REMOTE_SUCCESS_STATUS,
            some ⟨"x.html", "7"⟩⟩],
          "http://task/9", STATUS_BUSY,
          some ⟨"http://auth/2", BASIC_AUTH, some ⟨"bob", "pw"⟩, none⟩, []⟩
        "http://rdo/9" (.ok []) 0).auth =
      some ⟨"http://auth/2", BASIC_AUTH, none, none⟩ := by
  have h := C5_success_finalization_amended
    ⟨"http://coll/9",
      [⟨"http://rdo/9", "http://a.test/x", REMOTE_SUCCESS_STATUS,
        some ⟨"x.html", "7"⟩⟩],
      "http://task/9", STATUS_BUSY,
      some ⟨"http://auth/2", BASIC_AUTH, some ⟨"bob", "pw"⟩, none⟩, []⟩
    "http://rdo/9" 0 ⟨"http://auth/2", BASIC_AUTH, some ⟨"bob", "pw"⟩, none⟩
    (by decide) (by decide) rfl rfl (by decide)
  exact ⟨h.1.1, h.1.2.1⟩

/-! ### C7: credential cloning -/

/-- Two strings built from prefixes that differ at a common index are
distinct, whatever the suffixes. -/
theorem string_append_ne_of_ne_at (p q u v : String) (i : Nat)
    (hp : i < p.data.length) (hq : i < q.data.length)
    (hne : p.data[i]? ≠ q.data[i]?) : p ++ u ≠ q ++ v := by
  intro h
  apply hne
  have hd : p.data ++ u.data = q.data ++ v.data := congrArg String.data h
  calc p.data[i]? = (p.data ++ u.data)[i]? :=
        (List.getElem?_append_left hp).symm
    _ = (q.data ++ v.data)[i]? := by rw [hd]
    _ = q.data[i]? := List.getElem?_append_left hq

theorem basic_clone_uris_distinct (u1 u4 u5 : String) :
    ("http://data.lblod.info/id/authentication-configurations/" ++ u1 ≠
      "http://data.lblod.info/id/basic-security-schemes/" ++ u4) ∧
    ("http://data.lblod.info/id/authentication-configurations/" ++ u1 ≠
      "http://data.lblod.info/id/basic-authentication-credentials/" ++ u5) ∧
    ("http://data.lblod.info/id/basic-security-schemes/" ++ u4 ≠
      "http://data.lblod.info/id/basic-authentication-credentials/" ++ u5) :=
  ⟨string_append_ne_of_ne_at _ _ u1 u4 26 (by decide) (by decide) (by decide),
   string_append_ne_of_ne_at _ _ u1 u5 26 (by decide) (by decide) (by decide),
   string_append_ne_of_ne_at _ _ u4 u5 32 (by decide) (by decide) (by decide)⟩

/-- C7 counterexample: cloning a configuration of an unsupported shape (here
a DigestSecurityScheme) does not raise an error — the lookup query restricts
its VALUES clause to the two supported shapes, finds nothing, and the
function returns null without writing; the unsupported-shape throw is
unreachable. -/
theorem C7_counterexample :
    attachClonedAuthenticationConfiguraton
      (some ⟨"http://auth/3",
        "https://www.w3.org/2019/wot/security#DigestSecurityScheme",
        some ⟨"u", "p"⟩, none⟩) "a" "b" "c" "d" "e" = .ok none := by
  rfl

/-- C7 amended: cloning a basic-auth configuration yields a clone under
pairwise-distinct freshly minted URIs for the configuration, its security
scheme and its secrets, copying the source's username and password; an
OAuth2 configuration is cloned likewise (clientId and clientSecret); exactly
these two shapes are recognised, and any other shape is not found by the
restricted lookup, so cloning returns null without raising an error. -/
theorem C7_credential_cloning_amended (cfg : AuthenticationConfiguration)
    (u1 u2 u3 u4 u5 : String) :
    (cfg.secType = BASIC_AUTH →
      attachClonedAuthenticationConfiguraton (some cfg) u1 u2 u3 u4 u5 =
        .ok (some
          ⟨"http://data.lblod.info/id/authentication-configurations/" ++ u1,
           "http://data.lblod.info/id/basic-security-schemes/" ++ u4,
           "http://data.lblod.info/id/basic-authentication-credentials/" ++ u5,
           cfg.basic, none⟩)) ∧
    (cfg.secType = OAUTH2 →
      attachClonedAuthenticationConfiguraton (some cfg) u1 u2 u3 u4 u5 =
        .ok (some
          ⟨"http://data.lblod.info/id/authentication-configurations/" ++ u1,
           "http://data.lblod.info/id/oauth2-security-schemes/" ++ u2,
           "http://data.lblod.info/id/oauth2-credentials/" ++ u3,
           none, cfg.oauth⟩)) ∧
    (cfg.secType ≠ BASIC_AUTH → cfg.secType ≠ OAUTH2 →
      attachClonedAuthenticationConfiguraton (some cfg) u1 u2 u3 u4 u5 =
        .ok none) ∧
    (("http://data.lblod.info/id/authentication-configurations/" ++ u1 ≠
        "http://data.lblod.info/id/basic-security-schemes/" ++ u4) ∧
      ("http://data.lblod.info/id/authentication-configurations/" ++ u1 ≠
        "http://data.lblod.info/id/basic-authentication-credentials/" ++ u5) ∧
      ("http://data.lblod.info/id/basic-security-schemes/" ++ u4 ≠
        "http://data.lblod.info/id/basic-authentication-credentials/" ++ u5)) := by
  refine ⟨?_, ?_, ?_, basic_clone_uris_distinct u1 u4 u5⟩
  · intro hb
    simp [attachClonedAuthenticationConfiguraton, hb]
  · intro ho
    have hob : (OAUTH2 = BASIC_AUTH) = False := by
      simp only [eq_iff_iff, iff_false]
      decide
    simp [attachClonedAuthenticationConfiguraton, ho, hob]
  · intro h1 h2
    simp [attachClonedAuthenticationConfiguraton, h1, h2]

/-- Witness for the amended C7: a concrete basic-auth configuration is
cloned with its username and password under the three fresh URIs. -/
theorem C7_credential_cloning_amended_witness :
    attachClonedAuthenticationConfiguraton
      (some ⟨"http://auth/4", BASIC_AUTH, some ⟨"alice", "pw"⟩, none⟩)
      "1" "2" "3" "4" "5" =
      .ok (some
        ⟨"http://data.lblod.info/id/authentication-configurations/1",
         "http://data.lblod.info/id/basic-security-schemes/4",
         "http://data.lblod.info/id/basic-authentication-credentials/5",
         some ⟨"alice", "pw"⟩, none⟩) := by
  have h := (C7_credential_cloning_amended
    ⟨"http://auth/4", BASIC_AUTH, some ⟨"alice", "pw"⟩, none⟩
    "1" "2" "3" "4" "5").1 rfl
  rw [h]
  rfl

end HarvestCollector
